import Mathlib

/-!
Shallow embedding of the voice-ai provider library (TTS and STT adapters)
and proofs about the claims of its specification.

Conventions of the embedding:
* JavaScript numbers are modelled as rationals (`Rat`); the numeric literals
  compared here (0.1, 0.5, 1.5, 2.0, 5.0, 8000, 48000) are exact in both.
* Binary buffers are modelled as `List Nat` of byte values.
* A thrown JavaScript `Error` is modelled by its message string; a fallible
  operation returns `Except String A`.
* Effectful network calls are modelled by passing the outcome of each
  `fetch` as an explicit environment argument; the event-emitter side
  channel is modelled as an explicit list of emitted events returned next
  to the operation result.
-/

/-- Outcome of one `fetch` call: either the promise rejects (network error,
modelled by the rejection message) or it resolves to a response with an
`ok` flag, a display string for the error branch (the stringification of
the body used in the thrown message) and a typed payload for the success
branch. -/
inductive FetchOutcome (α : Type) where
  | networkError (msg : String)
  | response (ok : Bool) (errorDisplay : String) (payload : α)
deriving DecidableEq

/-- Request record of the TTS data model (`TTSRequest` in `types/tts`). -/
structure TTSRequest where
  text : String
  responseIndex : Option Nat
  interactionCount : Option Nat
deriving DecidableEq

/-- Metadata of a generated speech result (`TTSResponse.metadata`). -/
structure TTSMetadata where
  text : String
  format : Option String
  responseIndex : Option Nat
deriving DecidableEq

/-- Result record of the TTS data model (`TTSResponse` in `types/tts`). -/
structure TTSResponse where
  audioData : List Nat
  metadata : TTSMetadata
deriving DecidableEq

/-- Events of the TTS event taxonomy that the adapters emit: `SPEECH`
carries `(responseIndex, base64 audio, text, interactionCount)`; `ERROR`
carries the error. -/
inductive TTSEvent where
  | speech (responseIndex : Nat) (audio : String) (text : String)
      (interactionCount : Option Nat)
  | error (msg : String)
deriving DecidableEq

/-- Truth value of a `TTSEvent.speech` test. -/
def TTSEvent.isSpeech : TTSEvent → Bool
  | .speech _ _ _ _ => true
  | .error _ => false

/-- Truth value of a `TTSEvent.error` test. -/
def TTSEvent.isError : TTSEvent → Bool
  | .speech _ _ _ _ => false
  | .error _ => true

/-- Number of `SPEECH` events in a trace. -/
def speechCount (l : List TTSEvent) : Nat :=
  (l.filter TTSEvent.isSpeech).length

/-- Number of `ERROR` events in a trace. -/
def errorCount (l : List TTSEvent) : Nat :=
  (l.filter TTSEvent.isError).length

/-- Truth of the ordering property that no `SPEECH` event follows an
`ERROR` event in the trace. -/
def noSpeechAfterError : List TTSEvent → Bool
  | [] => true
  | e :: rest =>
    (if e.isError then rest.all (fun x => !x.isSpeech) else true)
      && noSpeechAfterError rest

/-- Alphabet of standard base64 (the encoding used by Node `Buffer`
`toString` with argument base64). -/
def base64Alphabet : String :=
  "ABCDEFGHIJKLMNOPQRSTUVWXYZabcdefghijklmnopqrstuvwxyz0123456789+/"

/-- Digit character of a sextet value. -/
def base64Digit (n : Nat) : Char :=
  base64Alphabet.toList.getD n 'A'

/-- Base64 encoding of a byte list, with padding; models the Node
`Buffer` base64 stringification used by the adapters when they emit the
`SPEECH` event. -/
def base64Encode : List Nat → String
  | [] => ""
  | [a] =>
    let a := a % 256
    String.mk [base64Digit (a / 4), base64Digit (a % 4 * 16), '=', '=']
  | [a, b] =>
    let a := a % 256
    let b := b % 256
    String.mk [base64Digit (a / 4), base64Digit (a % 4 * 16 + b / 16),
      base64Digit (b % 16 * 4), '=']
  | a :: b :: c :: rest =>
    let x := a % 256
    let y := b % 256
    let z := c % 256
    String.mk [base64Digit (x / 4), base64Digit (x % 4 * 16 + y / 16),
      base64Digit (y % 16 * 4 + z / 64), base64Digit (z % 64)]
      ++ base64Encode rest

/-- Value of one base64 digit character, if it is in the alphabet. -/
def base64CharValue (c : Char) : Option Nat :=
  base64Alphabet.toList.findIdx? (fun d => d = c)

/-- Bytes of a list of sextet values. -/
def base64DecodeSextets : List Nat → List Nat
  | s1 :: s2 :: s3 :: s4 :: rest =>
    (s1 * 4 + s2 / 16) :: (s2 % 16 * 16 + s3 / 4) :: (s3 % 4 * 64 + s4)
      :: base64DecodeSextets rest
  | [s1, s2, s3] => [s1 * 4 + s2 / 16, s2 % 16 * 16 + s3 / 4]
  | [s1, s2] => [s1 * 4 + s2 / 16]
  | _ => []

/-- Base64 decoding of a string: characters outside the alphabet
(including padding) are skipped; models the lenient Node
`Buffer.from` decoder with argument base64 used by the STT `send`
method. -/
def base64Decode (s : String) : List Nat :=
  base64DecodeSextets (s.toList.filterMap base64CharValue)

/-- Constructed state of the `ElevenLabsTTS` adapter (first class of
`elevenlabs.ts`): the fields assigned by the constructor. -/
structure ElevenLabsTTS where
  apiKey : String
  modelId : String
  voiceId : String
  stability : Rat
  similarityBoost : Rat
deriving DecidableEq

/-- Configuration record `ElevenLabsConfig`. The source declares
`voiceId` as required but still applies a default with a nullish
coalescing, so it is modelled as optional. -/
structure ElevenLabsConfig where
  apiKey : String
  voiceId : Option String
  modelId : Option String
  stability : Option Rat
  similarityBoost : Option Rat
deriving DecidableEq

/-- Constructor of `ElevenLabsTTS` (`elevenlabs.ts` lines 26-38): only
the presence of the API key is checked (a falsy, i.e. empty, string
throws); every other option is defaulted and assigned without any range
validation. -/
def ElevenLabsTTS.make (config : ElevenLabsConfig) : Except String ElevenLabsTTS :=
  if config.apiKey = "" then
    Except.error "ElevenLabs API key is required"
  else
    Except.ok
      { apiKey := config.apiKey
        modelId := config.modelId.getD "eleven_monolingual_v1"
        voiceId := config.voiceId.getD "premade/adam"
        stability := config.stability.getD (1/2)
        similarityBoost := config.similarityBoost.getD (3/4) }

/-- Tail shared by every whole-file `generate` method: given the
outcome of the body of the `try` block up to the audio buffer, either
the `catch` block emits `ERROR` with the thrown error and rethrows the
same error, or the `try` block builds the result record, emits `SPEECH`
with `(responseIndex ?? 0, base64(audioData), text, interactionCount)`
and then resolves with the result. Nothing after the `SPEECH` emission
can throw in the source, so a run is either one `ERROR` or one
`SPEECH`. -/
def emitResultEvents (req : TTSRequest) (run : Except String (List Nat)) :
    Except String TTSResponse × List TTSEvent :=
  match run with
  | .error e => (Except.error e, [TTSEvent.error e])
  | .ok audioData =>
    (Except.ok
      { audioData := audioData
        metadata :=
          { text := req.text
            format := some "audio/mpeg"
            responseIndex := req.responseIndex } },
     [TTSEvent.speech (req.responseIndex.getD 0) (base64Encode audioData)
        req.text req.interactionCount])

/-- Method `ElevenLabsTTS.generate` (`elevenlabs.ts` lines 40-90). The
single `fetch` outcome is the environment; its success payload is the
audio byte buffer obtained from `arrayBuffer`; a not-ok response throws
inside the `try` block. -/
def ElevenLabsTTS.generate (req : TTSRequest)
    (fetchResult : FetchOutcome (List Nat)) :
    Except String TTSResponse × List TTSEvent :=
  emitResultEvents req
    (match fetchResult with
     | .networkError m => Except.error m
     | .response ok errorDisplay body =>
       if ok then Except.ok body
       else Except.error ("ElevenLabs API error: " ++ errorDisplay))

/-- Status payload of one PlayHT poll response (`PlayHTStatusResponse`).
Any status other than completed or failed makes the loop wait and retry,
so it is modelled as `pending`. -/
inductive PollStatus where
  | completed (url : String)
  | failed
  | pending
deriving DecidableEq

/-- Outcome of one poll `fetch`: either the HTTP response is not ok, or
it carries a parsed status. -/
inductive PollResponse where
  | httpError
  | ok (status : PollStatus)
deriving DecidableEq

/-- Loop body of `PlayHTTTS.pollForCompletion`, by recursion on the
number of remaining attempts; `attempt` is the index of the next poll.
On a not-ok response it throws; on completed it returns the URL; on
failed it throws; otherwise it waits the fixed delay and retries. The
fixed 1000 ms delay has no observable effect in this model. -/
def pollLoop (responses : Nat → PollResponse) : Nat → Nat → Except String String
  | _, 0 => Except.error "Timeout waiting for audio generation"
  | attempt, fuel + 1 =>
    match responses attempt with
    | .httpError => Except.error "Failed to check transcription status"
    | .ok (.completed url) => Except.ok url
    | .ok .failed => Except.error "Audio generation failed"
    | .ok .pending => pollLoop responses (attempt + 1) fuel

/-- Method `PlayHTTTS.pollForCompletion` (`playht.ts` lines 173-205):
polls the status endpoint up to `maxAttempts = 30` times with a fixed
1000 ms delay between attempts. -/
def PlayHTTTS.pollForCompletion (responses : Nat → PollResponse) :
    Except String String :=
  pollLoop responses 0 30

/-- Body of the `try` block of `PlayHTTTS.generate` of the first
`PlayHTTTS` class (`playht.ts` lines 50-113), up to the audio buffer.
The environment supplies the conversion `fetch` outcome (payload: the
job id parsed from the JSON body), the sequence of poll responses and
the download `fetch` outcome as a function of the URL being downloaded
(payload: the audio bytes). -/
def PlayHTTTS.generateRun (conversion : FetchOutcome String)
    (poll : Nat → PollResponse)
    (download : String → FetchOutcome (List Nat)) :
    Except String (List Nat) :=
  match conversion with
  | .networkError m => Except.error m
  | .response ok errorDisplay _id =>
    if !ok then Except.error ("PlayHT API error: " ++ errorDisplay)
    else
      match PlayHTTTS.pollForCompletion poll with
      | .error e => Except.error e
      | .ok audioUrl =>
        match download audioUrl with
        | .networkError m => Except.error m
        | .response ok2 _ body =>
          if !ok2 then Except.error "Failed to download audio file"
          else Except.ok body

/-- Event and result behaviour of the first `PlayHTTTS.generate`: the
shared try/catch tail applied to the run above. -/
def PlayHTTTS.generate (req : TTSRequest)
    (conversion : FetchOutcome String)
    (poll : Nat → PollResponse)
    (download : String → FetchOutcome (List Nat)) :
    Except String TTSResponse × List TTSEvent :=
  emitResultEvents req (PlayHTTTS.generateRun conversion poll download)

/-- Observable step of a `generateStream` execution: an event emitted on
the adapter, a chunk record yielded by the async generator, a raw byte
buffer pushed into the `Readable` handle, or the destruction of the
handle with an error (for the `Readable` variants, whose read errors go
to the stream object, not the adapter). -/
inductive StreamStep where
  | emit (e : TTSEvent)
  | yieldResponse (r : TTSResponse)
  | yieldBytes (audioData : List Nat)
  | destroyed (msg : String)
deriving DecidableEq

/-- End of the byte stream seen by the reader: a natural end or a read
failure. -/
inductive StreamEnd where
  | done
  | readError (msg : String)
deriving DecidableEq

/-- Number of yielded chunks (either representation) in a stream trace. -/
def yieldCount (l : List StreamStep) : Nat :=
  (l.filter fun s =>
    match s with
    | .yieldResponse _ => true
    | .yieldBytes _ => true
    | _ => false).length

/-- Number of `SPEECH` events emitted in a stream trace. -/
def streamSpeechCount (l : List StreamStep) : Nat :=
  (l.filter fun s =>
    match s with
    | .emit e => e.isSpeech
    | _ => false).length

/-- Chunk records yielded by an async-generator stream trace, in order. -/
def yieldedResponses (l : List StreamStep) : List TTSResponse :=
  l.filterMap fun s =>
    match s with
    | .yieldResponse r => some r
    | _ => none

/-- Loop body of the async-generator `PlayHTTTS.generateStream`
(`playht.ts` lines 140-166): for each chunk read from the transport it
builds the chunk record with `responseIndex := chunkIndex`, emits
`SPEECH` with `chunkIndex`, yields the chunk and then increments
`chunkIndex`. `i` is the current value of `chunkIndex`. -/
def playhtStreamLoop (req : TTSRequest) (i : Nat) :
    List (List Nat) → List StreamStep
  | [] => []
  | c :: rest =>
    StreamStep.emit (TTSEvent.speech i (base64Encode c) req.text
        req.interactionCount)
      :: StreamStep.yieldResponse
        { audioData := c
          metadata :=
            { text := req.text
              format := some "audio/mpeg"
              responseIndex := some i } }
      :: playhtStreamLoop req (i + 1) rest

/-- Method `generateStream` of the first `PlayHTTTS` class (`playht.ts`
lines 115-171), an async generator. The environment gives the stream
`fetch` outcome whose payload is the optional response body: `none`
models a null body; the body itself is the list of chunks the reader
produces followed by how the stream ends. On a missing or not-ok
response the generator throws, the `catch` emits `ERROR` and rethrows;
a mid-stream read failure likewise reaches the `catch` after the chunks
read so far. -/
def PlayHTTTS.generateStreamTrace (req : TTSRequest)
    (fetchResult : FetchOutcome (Option (List (List Nat) × StreamEnd))) :
    List StreamStep :=
  match fetchResult with
  | .networkError m => [StreamStep.emit (TTSEvent.error m)]
  | .response ok _ body =>
    match body with
    | none => [StreamStep.emit (TTSEvent.error "Failed to get stream from PlayHT API")]
    | some (chunks, ending) =>
      if !ok then
        [StreamStep.emit (TTSEvent.error "Failed to get stream from PlayHT API")]
      else
        playhtStreamLoop req 0 chunks ++
          match ending with
          | .done => []
          | .readError m => [StreamStep.emit (TTSEvent.error m)]

/-- Loop body of the `Readable` pull in `ElevenLabsTTS.generateStream`
(`elevenlabs.ts` lines 117-153): each chunk read from the transport is
pushed into the handle as a raw buffer and `chunkIndex` is incremented;
no event is emitted on the adapter for any chunk. -/
def elevenStreamLoop : List (List Nat) → List StreamStep
  | [] => []
  | c :: rest => StreamStep.yieldBytes c :: elevenStreamLoop rest

/-- Method `ElevenLabsTTS.generateStream` (`elevenlabs.ts` lines
92-164), which returns a `Readable` handle. On a missing body or
not-ok response the method throws, the outer `catch` emits `ERROR` on
the adapter and rethrows. Chunks are pushed into the handle without any
adapter event; a mid-stream read failure destroys the handle with the
error (the emission inside `read` targets the `Readable`, not the
adapter). -/
def ElevenLabsTTS.generateStreamTrace (_req : TTSRequest)
    (fetchResult : FetchOutcome (Option (List (List Nat) × StreamEnd))) :
    List StreamStep :=
  match fetchResult with
  | .networkError m => [StreamStep.emit (TTSEvent.error m)]
  | .response ok _ body =>
    match body with
    | none =>
      [StreamStep.emit (TTSEvent.error "Failed to get stream from ElevenLabs API")]
    | some (chunks, ending) =>
      if !ok then
        [StreamStep.emit (TTSEvent.error "Failed to get stream from ElevenLabs API")]
      else
        elevenStreamLoop chunks ++
          match ending with
          | .done => []
          | .readError m => [StreamStep.destroyed m]

/-- Configuration record `DeepgramTTSConfig` of the `DeepgramTTS`
adapter. -/
structure DeepgramTTSConfig where
  apiKey : String
  voiceId : String
  model : Option String
  speakingRate : Option Rat
deriving DecidableEq

/-- Constructed state of the `DeepgramTTS` adapter. -/
structure DeepgramTTS where
  apiKey : String
  voiceId : String
  model : String
  speakingRate : Rat
deriving DecidableEq

/-- Constructor of `DeepgramTTS`: requires a non-empty (truthy) API
key, defaults the speaking rate to 1.0 and rejects a rate outside the
interval from 0.5 to 2.0 with a construction-time error, before any
network call. -/
def DeepgramTTS.make (config : DeepgramTTSConfig) : Except String DeepgramTTS :=
  if config.apiKey = "" then
    Except.error "Deepgram API key is required"
  else
    let speakingRate := config.speakingRate.getD 1
    if speakingRate < (1/2 : Rat) ∨ speakingRate > 2 then
      Except.error "Speaking rate must be between 0.5 and 2.0"
    else
      Except.ok
        { apiKey := config.apiKey
          voiceId := config.voiceId
          model := config.model.getD "aura-asteria-en"
          speakingRate := speakingRate }

/-- JavaScript truthiness of a number: zero is falsy (the NaN case does
not arise for the rationals used here). -/
def jsTruthy (x : Rat) : Bool :=
  x != 0

/-- JavaScript truthiness of a possibly-undefined number: undefined and
zero are falsy. -/
def optTruthy : Option Rat → Bool
  | none => false
  | some v => jsTruthy v

/-- Configuration record `PlayHTConfig` of the second `PlayHTTTS` class
(`playht.ts` lines 225-254). -/
structure PlayHTConfigV2 where
  apiKey : String
  userId : String
  voiceId : String
  quality : Option String
  speed : Option Rat
  encoding : Option String
  sampleRate : Option Rat
  seed : Option Rat
  temperature : Option Rat
  voiceGuidance : Option Rat
  styleGuidance : Option Rat
  textGuidance : Option Rat
  language : Option String
  model : Option String
deriving DecidableEq

/-- Constructed state of the second `PlayHTTTS` class. -/
structure PlayHTTTSv2 where
  apiKey : String
  userId : String
  voiceId : String
  quality : String
  speed : Rat
  encoding : String
  sampleRate : Rat
  seed : Option Rat
  temperature : Option Rat
  voiceGuidance : Option Rat
  styleGuidance : Option Rat
  textGuidance : Rat
  language : String
  model : String
deriving DecidableEq

/-- Constructor of the second `PlayHTTTS` class (`playht.ts` lines
282-332). Credentials and voice id must be truthy; then each numeric
tunable is validated. The speed check is unconditional, but every other
range check is guarded by the truthiness of the stored value, so an
absent or zero value skips that bounds test. -/
def PlayHTTTSv2.make (config : PlayHTConfigV2) : Except String PlayHTTTSv2 :=
  if config.apiKey = "" ∨ config.userId = "" then
    Except.error "PlayHT API key and User ID are required"
  else if config.voiceId = "" then
    Except.error "Voice ID is required"
  else
    let speed := config.speed.getD 1
    let sampleRate := config.sampleRate.getD 24000
    let temperature := config.temperature
    let voiceGuidance := config.voiceGuidance
    let styleGuidance := config.styleGuidance
    let textGuidance := config.textGuidance.getD 1
    if speed < (1/10 : Rat) ∨ speed > 5 then
      Except.error "Speed must be between 0.1 and 5.0"
    else if jsTruthy sampleRate ∧ (sampleRate < 8000 ∨ sampleRate > 48000) then
      Except.error "Sample rate must be between 8000 and 48000 Hz"
    else if optTruthy temperature ∧
        (temperature.getD 0 < 0 ∨ temperature.getD 0 > 2) then
      Except.error "Temperature must be between 0 and 2"
    else if optTruthy voiceGuidance ∧
        (voiceGuidance.getD 0 < 1 ∨ voiceGuidance.getD 0 > 6) then
      Except.error "Voice guidance must be between 1 and 6"
    else if optTruthy styleGuidance ∧
        (styleGuidance.getD 0 < 1 ∨ styleGuidance.getD 0 > 30) then
      Except.error "Style guidance must be between 1 and 30"
    else if jsTruthy textGuidance ∧ (textGuidance < 1 ∨ textGuidance > 2) then
      Except.error "Text guidance must be between 1 and 2"
    else
      Except.ok
        { apiKey := config.apiKey
          userId := config.userId
          voiceId := config.voiceId
          quality := config.quality.getD "premium"
          speed := speed
          encoding := config.encoding.getD "mp3"
          sampleRate := sampleRate
          seed := config.seed
          temperature := temperature
          voiceGuidance := voiceGuidance
          styleGuidance := styleGuidance
          textGuidance := textGuidance
          language := config.language.getD "english"
          model := config.model.getD "Play3.0-mini" }

/-- Method `generate` of the second `PlayHTTTS` class (`playht.ts`
lines 334-403): identical in structure to the first variant except
that an empty (falsy) `request.text` throws before the conversion
`fetch` is issued; the `catch` emits `ERROR` and rethrows. -/
def PlayHTTTSv2.generate (req : TTSRequest)
    (conversion : FetchOutcome String)
    (poll : Nat → PollResponse)
    (download : String → FetchOutcome (List Nat)) :
    Except String TTSResponse × List TTSEvent :=
  emitResultEvents req
    (if req.text = "" then
      Except.error "Text is required for TTS generation"
    else
      PlayHTTTS.generateRun conversion poll download)

/-- Word record of a Deepgram transcript alternative. -/
structure DGWord where
  word : String
  start : Rat
  wordEnd : Rat
  confidence : Rat
  punctuated_word : Option String
  speaker : Option Nat
deriving DecidableEq

/-- Alternative of a Deepgram transcript channel. -/
structure DGAlternative where
  transcript : String
  confidence : Option Rat
  words : Option (List DGWord)
deriving DecidableEq

/-- Channel field of a Deepgram live transcription event. -/
structure DGChannel where
  alternatives : Option (List DGAlternative)
deriving DecidableEq

/-- Model info nested in the Deepgram event metadata. -/
structure DGModelInfo where
  version : Option String
deriving DecidableEq

/-- Metadata field of a Deepgram live transcription event. -/
structure DGMetadata where
  request_id : Option String
  model_info : Option DGModelInfo
deriving DecidableEq

/-- Deepgram `LiveTranscriptionEvent` as consumed by the transcript
handler: the fields the handler reads, each optional where the SDK type
allows absence. -/
structure LiveTranscriptionEvent where
  type : String
  channel : Option DGChannel
  is_final : Option Bool
  speech_final : Option Bool
  start : Option Rat
  duration : Option Rat
  metadata : Option DGMetadata
deriving DecidableEq

/-- Deepgram `UtteranceEndEvent`. -/
structure UtteranceEndEvent where
  last_word_end : Rat
  channel : List Nat
deriving DecidableEq

/-- Deepgram `SpeechStartedEvent`. -/
structure SpeechStartedEvent where
  timestamp : Rat
  channel : List Nat
deriving DecidableEq

/-- Word record of the canonical transcription result built by the
adapter. -/
structure TranscriptionWord where
  word : String
  start : Rat
  wordEnd : Rat
  confidence : Rat
  punctuatedWord : Option String
  speaker : Option Nat
deriving DecidableEq

/-- Canonical `TranscriptionResult` record built by the Deepgram STT
transcript handler, including the metadata fields it copies. -/
structure TranscriptionResult where
  text : String
  isFinal : Bool
  speechFinal : Bool
  confidence : Option Rat
  start : Option Rat
  duration : Option Rat
  words : Option (List TranscriptionWord)
  requestId : Option String
  modelVersion : Option String
deriving DecidableEq

/-- Canonical `UtteranceEndResult` record. -/
structure UtteranceEndResult where
  last_word_end : Rat
  channel : List Nat
deriving DecidableEq

/-- Canonical `SpeechStartedResult` record. -/
structure SpeechStartedResult where
  timestamp : Rat
  channel : List Nat
deriving DecidableEq

/-- Events of the STT event taxonomy emitted by the session handlers. -/
inductive STTEventOut where
  | transcription (t : TranscriptionResult)
  | utteranceEnd (u : UtteranceEndResult)
  | speechStarted (s : SpeechStartedResult)
  | error (msg : String)
  | close
deriving DecidableEq

/-- Truth value of a `STTEventOut.transcription` test. -/
def STTEventOut.isTranscription : STTEventOut → Bool
  | .transcription _ => true
  | _ => false

/-- Number of `TRANSCRIPTION` events in a session event list. -/
def transcriptionCount (l : List STTEventOut) : Nat :=
  (l.filter STTEventOut.isTranscription).length

/-- Whitespace trim of a string, dropping leading and trailing
whitespace characters; models the JavaScript string trim applied to
the vendor transcript. -/
def jsTrim (s : String) : String :=
  String.mk
    (((s.toList.dropWhile Char.isWhitespace).reverse.dropWhile
        Char.isWhitespace).reverse)

/-- Mapping from a Deepgram word to the canonical word record, as
written in the transcript handler. -/
def dgWordToWord (w : DGWord) : TranscriptionWord :=
  { word := w.word
    start := w.start
    wordEnd := w.wordEnd
    confidence := w.confidence
    punctuatedWord := w.punctuated_word
    speaker := w.speaker }

/-- Transcript handler of `DeepgramSTT` (`deepgram.ts` lines 153-180):
when the event has type Results and a non-empty alternatives list, it
emits one `TRANSCRIPTION` built from the first alternative (trimmed
text, `is_final` and `speech_final` defaulted to false) and the event
metadata; otherwise it emits nothing. -/
def handleTranscript (event : LiveTranscriptionEvent) : List STTEventOut :=
  match event.channel with
  | none => []
  | some ch =>
    match ch.alternatives with
    | none => []
    | some [] => []
    | some (alt :: _) =>
      if event.type = "Results" then
        [STTEventOut.transcription
          { text := jsTrim alt.transcript
            isFinal := event.is_final.getD false
            speechFinal := event.speech_final.getD false
            confidence := alt.confidence
            start := event.start
            duration := event.duration
            words := alt.words.map (List.map dgWordToWord)
            requestId := event.metadata.bind (fun m => m.request_id)
            modelVersion :=
              (event.metadata.bind (fun m => m.model_info)).bind
                (fun mi => mi.version) }]
      else []

/-- Inbound vendor message of the live session, classified per the
handler that receives it. -/
inductive DGMessage where
  | transcriptMsg (e : LiveTranscriptionEvent)
  | utteranceEndMsg (e : UtteranceEndEvent)
  | speechStartedMsg (e : SpeechStartedEvent)
  | errorMsg (m : String)
  | closeMsg
deriving DecidableEq

/-- Dispatch of one inbound message to its handler (`deepgram.ts` lines
153-207). The utterance-end handler (lines 183-189) unconditionally
emits one `UTTERANCE_END` with the last word end and channel of the
vendor event; the session keeps no per-utterance state. -/
def handleMessage : DGMessage → List STTEventOut
  | .transcriptMsg e => handleTranscript e
  | .utteranceEndMsg e =>
    [STTEventOut.utteranceEnd { last_word_end := e.last_word_end, channel := e.channel }]
  | .speechStartedMsg e =>
    [STTEventOut.speechStarted { timestamp := e.timestamp, channel := e.channel }]
  | .errorMsg m => [STTEventOut.error m]
  | .closeMsg => [STTEventOut.close]

/-- Events emitted by a session over a list of inbound messages: each
message is handled independently, in arrival order. -/
def processMessages (msgs : List DGMessage) : List STTEventOut :=
  msgs.flatMap handleMessage

/-- State of the underlying `ListenLiveClient` connection: its ready
state code and the binary frames forwarded to the transport so far. -/
structure ListenLiveClient where
  readyState : Nat
  sentFrames : List (List Nat)
deriving DecidableEq

/-- State of the `DeepgramSTT` adapter: the connection, optional to
model the defensive access in `getReadyState`. -/
structure DeepgramSTT where
  dgConnection : Option ListenLiveClient
deriving DecidableEq

/-- Method `DeepgramSTT.getReadyState` (`deepgram.ts` lines 217-219):
the ready state of the connection, or 3 (closed) when the connection is
absent. -/
def DeepgramSTT.getReadyState (s : DeepgramSTT) : Nat :=
  match s.dgConnection with
  | none => 3
  | some c => c.readyState

/-- Method `DeepgramSTT.send` (`deepgram.ts` lines 211-215): when the
ready state equals 1 (open), the base64-decoded payload is forwarded to
the transport; otherwise nothing happens. Returns the next adapter
state and the (always empty) list of events emitted by the call. -/
def DeepgramSTT.send (s : DeepgramSTT) (payload : String) :
    DeepgramSTT × List STTEventOut :=
  if s.getReadyState = 1 then
    match s.dgConnection with
    | some c =>
      ({ dgConnection :=
          some { c with sentFrames := c.sentFrames ++ [base64Decode payload] } },
        [])
    | none => (s, [])
  else
    (s, [])

/-- Helper: when the first `i` polled statuses are pending and status
`i` is completed within the attempt bound, the loop returns that URL. -/
theorem pollLoop_completed (responses : Nat → PollResponse) :
    ∀ (i fuel start : Nat) (url : String), i < fuel →
      (∀ j, j < i → responses (start + j) = PollResponse.ok PollStatus.pending) →
      responses (start + i) = PollResponse.ok (PollStatus.completed url) →
      pollLoop responses start fuel = Except.ok url := by
  intro i
  induction i with
  | zero =>
    intro fuel start url hlt _ hc
    match fuel, hlt with
    | fuel + 1, _ =>
      simp only [Nat.add_zero] at hc
      simp [pollLoop, hc]
  | succ i ih =>
    intro fuel start url hlt hp hc
    match fuel, hlt with
    | fuel + 1, hlt =>
      have h0 : responses start = PollResponse.ok PollStatus.pending := by
        have := hp 0 (Nat.succ_pos i)
        simpa using this
      simp only [pollLoop, h0]
      apply ih fuel (start + 1) url (Nat.lt_of_succ_lt_succ hlt)
      · intro j hj
        have := hp (j + 1) (Nat.succ_lt_succ hj)
        simpa [Nat.add_comm, Nat.add_assoc, Nat.add_left_comm] using this
      · have : start + 1 + i = start + (i + 1) := by omega
        rw [this]
        exact hc

/-- Helper: when the first `i` polled statuses are pending and status
`i` is failed within the attempt bound, the loop fails with the
upstream failure error. -/
theorem pollLoop_failed (responses : Nat → PollResponse) :
    ∀ (i fuel start : Nat), i < fuel →
      (∀ j, j < i → responses (start + j) = PollResponse.ok PollStatus.pending) →
      responses (start + i) = PollResponse.ok PollStatus.failed →
      pollLoop responses start fuel = Except.error "Audio generation failed" := by
  intro i
  induction i with
  | zero =>
    intro fuel start hlt _ hc
    match fuel, hlt with
    | fuel + 1, _ =>
      simp only [Nat.add_zero] at hc
      simp [pollLoop, hc]
  | succ i ih =>
    intro fuel start hlt hp hc
    match fuel, hlt with
    | fuel + 1, hlt =>
      have h0 : responses start = PollResponse.ok PollStatus.pending := by
        have := hp 0 (Nat.succ_pos i)
        simpa using this
      simp only [pollLoop, h0]
      apply ih fuel (start + 1) (Nat.lt_of_succ_lt_succ hlt)
      · intro j hj
        have := hp (j + 1) (Nat.succ_lt_succ hj)
        simpa [Nat.add_comm, Nat.add_assoc, Nat.add_left_comm] using this
      · have : start + 1 + i = start + (i + 1) := by omega
        rw [this]
        exact hc

/-- Helper: when every polled status within the attempt bound is
pending, the loop exhausts its attempts and fails with the timeout
error. -/
theorem pollLoop_timeout (responses : Nat → PollResponse) :
    ∀ (fuel start : Nat),
      (∀ j, j < fuel → responses (start + j) = PollResponse.ok PollStatus.pending) →
      pollLoop responses start fuel =
        Except.error "Timeout waiting for audio generation" := by
  intro fuel
  induction fuel with
  | zero => intro start _; rfl
  | succ fuel ih =>
    intro start hp
    have h0 : responses start = PollResponse.ok PollStatus.pending := by
      have := hp 0 (Nat.succ_pos fuel)
      simpa using this
    simp only [pollLoop, h0]
    apply ih (start + 1)
    intro j hj
    have := hp (j + 1) (Nat.succ_lt_succ hj)
    simpa [Nat.add_comm, Nat.add_assoc, Nat.add_left_comm] using this

/-- Helper: the loop consults only the responses of the attempts within
its fuel. -/
theorem pollLoop_congr (responses responses' : Nat → PollResponse) :
    ∀ (fuel start : Nat),
      (∀ j, j < fuel → responses (start + j) = responses' (start + j)) →
      pollLoop responses start fuel = pollLoop responses' start fuel := by
  intro fuel
  induction fuel with
  | zero => intro start _; rfl
  | succ fuel ih =>
    intro start hp
    have h0 : responses start = responses' start := by
      have := hp 0 (Nat.succ_pos fuel)
      simpa using this
    simp only [pollLoop, ← h0]
    cases hr : responses start with
    | httpError => rfl
    | ok status =>
      cases status with
      | completed url => rfl
      | failed => rfl
      | pending =>
        apply ih (start + 1)
        intro j hj
        have := hp (j + 1) (Nat.succ_lt_succ hj)
        simpa [Nat.add_comm, Nat.add_assoc, Nat.add_left_comm] using this

/-- C2: on the poll-based generate path, a completed status with a URL
reached within the 30-attempt bound (after only pending statuses) makes
`pollForCompletion` resolve with that URL and `generate` succeed; a
failed status reached first fails the operation with the upstream
failure error; thirty pending statuses fail it with the timeout error;
and the loop never consults a response beyond the attempt bound. -/
theorem playht_poll_generate_spec :
    (∀ (responses : Nat → PollResponse) (i : Nat) (url : String), i < 30 →
      (∀ j, j < i → responses j = PollResponse.ok PollStatus.pending) →
      responses i = PollResponse.ok (PollStatus.completed url) →
      PlayHTTTS.pollForCompletion responses = Except.ok url) ∧
    (∀ (responses : Nat → PollResponse) (i : Nat), i < 30 →
      (∀ j, j < i → responses j = PollResponse.ok PollStatus.pending) →
      responses i = PollResponse.ok PollStatus.failed →
      PlayHTTTS.pollForCompletion responses =
        Except.error "Audio generation failed") ∧
    (∀ (responses : Nat → PollResponse),
      (∀ j, j < 30 → responses j = PollResponse.ok PollStatus.pending) →
      PlayHTTTS.pollForCompletion responses =
        Except.error "Timeout waiting for audio generation") ∧
    (∀ (responses responses' : Nat → PollResponse),
      (∀ j, j < 30 → responses j = responses' j) →
      PlayHTTTS.pollForCompletion responses =
        PlayHTTTS.pollForCompletion responses') ∧
    (∀ (req : TTSRequest) (okDisp idPayload dlDisp : String)
       (responses : Nat → PollResponse) (i : Nat) (url : String)
       (body : List Nat), i < 30 →
      (∀ j, j < i → responses j = PollResponse.ok PollStatus.pending) →
      responses i = PollResponse.ok (PollStatus.completed url) →
      PlayHTTTS.generate req (FetchOutcome.response true okDisp idPayload)
          responses
          (fun u => if u = url then FetchOutcome.response true dlDisp body
                    else FetchOutcome.networkError "unreachable") =
        (Except.ok
          { audioData := body
            metadata :=
              { text := req.text
                format := some "audio/mpeg"
                responseIndex := req.responseIndex } },
         [TTSEvent.speech (req.responseIndex.getD 0) (base64Encode body)
            req.text req.interactionCount])) := by
  refine ⟨?_, ?_, ?_, ?_, ?_⟩
  · intro responses i url hlt hp hc
    exact pollLoop_completed responses i 30 0 url hlt (by simpa using hp)
      (by simpa using hc)
  · intro responses i hlt hp hc
    exact pollLoop_failed responses i 30 0 hlt (by simpa using hp)
      (by simpa using hc)
  · intro responses hp
    exact pollLoop_timeout responses 30 0 (by simpa using hp)
  · intro responses responses' hp
    exact pollLoop_congr responses responses' 30 0 (by simpa using hp)
  · intro req okDisp idPayload dlDisp responses i url body hlt hp hc
    have hpoll : PlayHTTTS.pollForCompletion responses = Except.ok url :=
      pollLoop_completed responses i 30 0 url hlt (by simpa using hp)
        (by simpa using hc)
    unfold PlayHTTTS.generate PlayHTTTS.generateRun emitResultEvents
    simp [hpoll]

/-- Witness for C2 at the concrete status sequences of the scenario:
two pending polls then completed resolves; all pending times out. -/
theorem playht_poll_generate_spec_witness :
    ((2 : Nat) < 30 ∧
      PlayHTTTS.pollForCompletion
        (fun j => if j < 2 then PollResponse.ok PollStatus.pending
                  else PollResponse.ok (PollStatus.completed "u")) =
        Except.ok "u") ∧
    PlayHTTTS.pollForCompletion (fun _ => PollResponse.ok PollStatus.pending) =
      Except.error "Timeout waiting for audio generation" := by
  constructor
  · refine ⟨by decide, ?_⟩
    apply playht_poll_generate_spec.1 _ 2 "u" (by decide)
    · intro j hj
      simp [hj]
    · simp
  · apply playht_poll_generate_spec.2.2.1
    intro j _
    rfl

/-- Helper: the chunk records yielded by the stream loop starting at
counter `i` carry the response indices `i, i+1, ...` in order. -/
theorem playhtStreamLoop_indices (req : TTSRequest) :
    ∀ (chunks : List (List Nat)) (i : Nat),
      (yieldedResponses (playhtStreamLoop req i chunks)).map
          (fun r => r.metadata.responseIndex) =
        (List.range' i chunks.length).map some := by
  intro chunks
  induction chunks with
  | nil => intro i; rfl
  | cons c rest ih =>
    intro i
    simp only [playhtStreamLoop, yieldedResponses, List.filterMap_cons,
      List.length_cons, List.range'_succ, List.map_cons]
    simpa [yieldedResponses] using ih (i + 1)

/-- Helper: the stream loop yields one chunk record per transport
chunk. -/
theorem playhtStreamLoop_length (req : TTSRequest) :
    ∀ (chunks : List (List Nat)) (i : Nat),
      (yieldedResponses (playhtStreamLoop req i chunks)).length =
        chunks.length := by
  intro chunks i
  have h := playhtStreamLoop_indices req chunks i
  have := congrArg List.length h
  simpa using this

/-- Helper: the suffix appended after the loop for the stream ending
contains no yielded chunk records. -/
theorem streamEnding_no_yields (ending : StreamEnd) :
    yieldedResponses
        (match ending with
         | StreamEnd.done => []
         | StreamEnd.readError m => [StreamStep.emit (TTSEvent.error m)]) = [] := by
  cases ending <;> rfl

/-- C7: the response indices of the chunks yielded by the PlayHT
async-generator `generateStream` are exactly `0, 1, 2, ...` with no
gaps and no repeats, up to the end of the sequence, for every request
(hence independent of the request response index) and every transport
outcome. -/
theorem playht_stream_chunk_indices :
    ∀ (req : TTSRequest)
      (fetchResult : FetchOutcome (Option (List (List Nat) × StreamEnd))),
      (yieldedResponses (PlayHTTTS.generateStreamTrace req fetchResult)).map
          (fun r => r.metadata.responseIndex) =
        (List.range
          (yieldedResponses (PlayHTTTS.generateStreamTrace req fetchResult)).length).map
          some := by
  intro req fetchResult
  match fetchResult with
  | .networkError m => rfl
  | .response ok _ none => cases ok <;> rfl
  | .response ok _ (some (chunks, ending)) =>
    cases ok with
    | false => rfl
    | true =>
      unfold PlayHTTTS.generateStreamTrace
      simp only [Bool.not_true]
      rw [if_neg (show ¬(false = true) by decide)]
      simp only [yieldedResponses, List.filterMap_append]
      have hsuffix := streamEnding_no_yields ending
      simp only [yieldedResponses] at hsuffix
      rw [hsuffix, List.append_nil]
      have hidx := playhtStreamLoop_indices req chunks 0
      have hlen := playhtStreamLoop_length req chunks 0
      simp only [yieldedResponses] at hidx hlen
      rw [hidx, hlen, List.range_eq_range']

/-- Helper: yields counted over an appended trace. -/
theorem yieldCount_append (a b : List StreamStep) :
    yieldCount (a ++ b) = yieldCount a + yieldCount b := by
  simp [yieldCount, List.filter_append]

/-- Helper: speech emissions counted over an appended trace. -/
theorem streamSpeechCount_append (a b : List StreamStep) :
    streamSpeechCount (a ++ b) = streamSpeechCount a + streamSpeechCount b := by
  simp [streamSpeechCount, List.filter_append]

/-- Helper: the PlayHT stream loop emits one `SPEECH` per transport
chunk. -/
theorem playhtStreamLoop_speechCount (req : TTSRequest) :
    ∀ (chunks : List (List Nat)) (i : Nat),
      streamSpeechCount (playhtStreamLoop req i chunks) = chunks.length := by
  intro chunks
  induction chunks with
  | nil => intro i; rfl
  | cons c rest ih =>
    intro i
    simp only [playhtStreamLoop, streamSpeechCount, List.filter_cons]
    simpa [TTSEvent.isSpeech, streamSpeechCount] using ih (i + 1)

/-- Helper: the PlayHT stream loop yields one chunk record per
transport chunk. -/
theorem playhtStreamLoop_yieldCount (req : TTSRequest) :
    ∀ (chunks : List (List Nat)) (i : Nat),
      yieldCount (playhtStreamLoop req i chunks) = chunks.length := by
  intro chunks
  induction chunks with
  | nil => intro i; rfl
  | cons c rest ih =>
    intro i
    simp only [playhtStreamLoop, yieldCount, List.filter_cons]
    simpa [yieldCount] using ih (i + 1)

/-- Helper: in every position-wise initial part of the PlayHT stream
loop, the number of chunks already yielded never exceeds the number of
`SPEECH` events already emitted: each `SPEECH` is emitted before its
chunk is yielded. -/
theorem yieldCount_cons_emit (e : TTSEvent) (l : List StreamStep) :
    yieldCount (StreamStep.emit e :: l) = yieldCount l := by
  simp [yieldCount, List.filter_cons]

/-- Helper: a yielded chunk record adds one to the yield count. -/
theorem yieldCount_cons_yr (r : TTSResponse) (l : List StreamStep) :
    yieldCount (StreamStep.yieldResponse r :: l) = yieldCount l + 1 := by
  simp [yieldCount, List.filter_cons]

/-- Helper: an emitted `SPEECH` adds one to the speech count. -/
theorem streamSpeechCount_cons_speech (i : Nat) (a t : String)
    (ic : Option Nat) (l : List StreamStep) :
    streamSpeechCount (StreamStep.emit (TTSEvent.speech i a t ic) :: l) =
      streamSpeechCount l + 1 := by
  simp [streamSpeechCount, List.filter_cons, TTSEvent.isSpeech]

/-- Helper: a yielded chunk record leaves the speech count unchanged. -/
theorem streamSpeechCount_cons_yr (r : TTSResponse) (l : List StreamStep) :
    streamSpeechCount (StreamStep.yieldResponse r :: l) =
      streamSpeechCount l := by
  simp [streamSpeechCount, List.filter_cons]

/-- Helper: in every position-wise initial part of the PlayHT stream
loop, the number of chunks already yielded never exceeds the number of
`SPEECH` events already emitted: each `SPEECH` is emitted before its
chunk is yielded. -/
theorem playhtStreamLoop_take_le (req : TTSRequest) :
    ∀ (chunks : List (List Nat)) (i n : Nat),
      yieldCount ((playhtStreamLoop req i chunks).take n) ≤
        streamSpeechCount ((playhtStreamLoop req i chunks).take n) := by
  intro chunks
  induction chunks with
  | nil => intro i n; simp [playhtStreamLoop, yieldCount, streamSpeechCount]
  | cons c rest ih =>
    intro i n
    match n with
    | 0 => simp [yieldCount, streamSpeechCount]
    | 1 =>
      simp only [playhtStreamLoop, List.take_succ_cons, List.take_zero]
      rw [yieldCount_cons_emit, streamSpeechCount_cons_speech]
      simp [yieldCount, streamSpeechCount]
    | n + 2 =>
      simp only [playhtStreamLoop, List.take_succ_cons]
      rw [yieldCount_cons_emit, yieldCount_cons_yr,
        streamSpeechCount_cons_speech, streamSpeechCount_cons_yr]
      have := ih (i + 1) n
      omega

/-- Helper: the ElevenLabs stream loop emits no `SPEECH` event. -/
theorem elevenStreamLoop_speechCount :
    ∀ (chunks : List (List Nat)),
      streamSpeechCount (elevenStreamLoop chunks) = 0 := by
  intro chunks
  induction chunks with
  | nil => rfl
  | cons c rest ih =>
    simp only [elevenStreamLoop, streamSpeechCount, List.filter_cons]
    simpa [streamSpeechCount] using ih

/-- C3 (amended): the async-generator `generateStream` of the PlayHT
adapter emits exactly one `SPEECH` event per yielded chunk, and every
`SPEECH` is emitted before or at the moment its chunk is yielded (in
every initial part of the trace the yields never outnumber the
emissions); the `Readable`-based `generateStream` of the ElevenLabs
adapter yields its chunks without emitting any `SPEECH` event at
all. -/
theorem tts_stream_speech_per_chunk :
    (∀ (req : TTSRequest)
       (fetchResult : FetchOutcome (Option (List (List Nat) × StreamEnd))),
      streamSpeechCount (PlayHTTTS.generateStreamTrace req fetchResult) =
        yieldCount (PlayHTTTS.generateStreamTrace req fetchResult)) ∧
    (∀ (req : TTSRequest)
       (fetchResult : FetchOutcome (Option (List (List Nat) × StreamEnd)))
       (n : Nat),
      yieldCount ((PlayHTTTS.generateStreamTrace req fetchResult).take n) ≤
        streamSpeechCount ((PlayHTTTS.generateStreamTrace req fetchResult).take n)) ∧
    (∀ (req : TTSRequest)
       (fetchResult : FetchOutcome (Option (List (List Nat) × StreamEnd))),
      streamSpeechCount (ElevenLabsTTS.generateStreamTrace req fetchResult) = 0) := by
  refine ⟨?_, ?_, ?_⟩
  · intro req fetchResult
    match fetchResult with
    | .networkError m => rfl
    | .response ok _ none => cases ok <;> rfl
    | .response ok _ (some (chunks, ending)) =>
      cases ok with
      | false => rfl
      | true =>
        unfold PlayHTTTS.generateStreamTrace
        simp only [Bool.not_true]
        rw [if_neg (show ¬(false = true) by decide)]
        rw [streamSpeechCount_append, yieldCount_append,
          playhtStreamLoop_speechCount, playhtStreamLoop_yieldCount]
        cases ending <;> simp [streamSpeechCount, yieldCount,
          List.filter_cons, TTSEvent.isSpeech]
  · intro req fetchResult n
    match fetchResult with
    | .networkError m =>
      match n with
      | 0 => simp [yieldCount, streamSpeechCount]
      | n + 1 =>
        simp only [PlayHTTTS.generateStreamTrace, List.take_succ_cons,
          List.take_nil]
        rw [yieldCount_cons_emit]
        simp [yieldCount, streamSpeechCount]
    | .response ok _ none =>
      cases ok <;>
        · match n with
          | 0 => simp [yieldCount, streamSpeechCount]
          | n + 1 =>
            simp only [PlayHTTTS.generateStreamTrace, List.take_succ_cons,
              List.take_nil]
            rw [yieldCount_cons_emit]
            simp [yieldCount, streamSpeechCount]
    | .response ok disp (some (chunks, ending)) =>
      cases ok with
      | false =>
        have htr : PlayHTTTS.generateStreamTrace req
            (FetchOutcome.response false disp (some (chunks, ending))) =
            [StreamStep.emit (TTSEvent.error "Failed to get stream from PlayHT API")] := rfl
        rw [htr]
        match n with
        | 0 => simp [yieldCount, streamSpeechCount]
        | n + 1 =>
          simp only [List.take_succ_cons, List.take_nil]
          rw [yieldCount_cons_emit]
          simp [yieldCount, streamSpeechCount]
      | true =>
        unfold PlayHTTTS.generateStreamTrace
        simp only [Bool.not_true]
        rw [if_neg (show ¬(false = true) by decide)]
        rw [List.take_append_eq_append_take, yieldCount_append,
          streamSpeechCount_append]
        have hloop := playhtStreamLoop_take_le req chunks 0 n
        have hsuffix :
            yieldCount
              ((match ending with
                | StreamEnd.done => ([] : List StreamStep)
                | StreamEnd.readError m =>
                  [StreamStep.emit (TTSEvent.error m)]).take
                (n - (playhtStreamLoop req 0 chunks).length)) = 0 := by
          cases ending with
          | done => simp [yieldCount]
          | readError m =>
            match h : n - (playhtStreamLoop req 0 chunks).length with
            | 0 => simp [yieldCount]
            | k + 1 =>
              simp only [List.take_succ_cons, List.take_nil]
              rw [yieldCount_cons_emit]
              simp [yieldCount]
        rw [hsuffix]
        omega
  · intro req fetchResult
    match fetchResult with
    | .networkError m => rfl
    | .response ok _ none => cases ok <;> rfl
    | .response ok _ (some (chunks, ending)) =>
      cases ok with
      | false => rfl
      | true =>
        unfold ElevenLabsTTS.generateStreamTrace
        simp only [Bool.not_true]
        rw [if_neg (show ¬(false = true) by decide)]
        rw [streamSpeechCount_append, elevenStreamLoop_speechCount]
        cases ending <;> simp [streamSpeechCount, List.filter_cons]

/-- Counterexample for C3 as stated: on the ElevenLabs adapter, a
one-chunk stream yields its chunk while zero `SPEECH` events are
emitted, so it is not the case that every adapter emits one `SPEECH`
per chunk. -/
theorem elevenlabs_stream_no_speech_cex :
    yieldCount
        (ElevenLabsTTS.generateStreamTrace
          { text := "hi", responseIndex := none, interactionCount := none }
          (FetchOutcome.response true "" (some ([[1]], StreamEnd.done)))) = 1 ∧
    streamSpeechCount
        (ElevenLabsTTS.generateStreamTrace
          { text := "hi", responseIndex := none, interactionCount := none }
          (FetchOutcome.response true "" (some ([[1]], StreamEnd.done)))) = 0 := by
  constructor <;> rfl

/-- Helper: a whole-file generate run produces either exactly one
`ERROR` event carrying the rethrown error, or exactly one `SPEECH`
event; in particular at most one of each, never both, and never a
`SPEECH` after an `ERROR`. -/
theorem emitResultEvents_error_events (req : TTSRequest)
    (run : Except String (List Nat)) :
    (∀ e, (emitResultEvents req run).1 = Except.error e →
      (emitResultEvents req run).2 = [TTSEvent.error e]) ∧
    speechCount (emitResultEvents req run).2 ≤ 1 ∧
    errorCount (emitResultEvents req run).2 ≤ 1 ∧
    ¬(1 ≤ speechCount (emitResultEvents req run).2 ∧
      1 ≤ errorCount (emitResultEvents req run).2) ∧
    noSpeechAfterError (emitResultEvents req run).2 = true := by
  cases run with
  | error e' =>
    refine ⟨?_, ?_, ?_, ?_, ?_⟩
    · intro e h
      have he : e' = e := by
        simpa [emitResultEvents] using h
      simp [emitResultEvents, he]
    · simp [emitResultEvents, speechCount, List.filter_cons, TTSEvent.isSpeech]
    · simp [emitResultEvents, errorCount, List.filter_cons, TTSEvent.isError]
    · simp [emitResultEvents, speechCount, List.filter_cons, TTSEvent.isSpeech]
    · simp [emitResultEvents, noSpeechAfterError, TTSEvent.isError,
        TTSEvent.isSpeech]
  | ok a =>
    refine ⟨?_, ?_, ?_, ?_, ?_⟩
    · intro e h
      simp [emitResultEvents] at h
    · simp [emitResultEvents, speechCount, List.filter_cons, TTSEvent.isSpeech]
    · simp [emitResultEvents, errorCount, List.filter_cons, TTSEvent.isError]
    · simp [emitResultEvents, errorCount, List.filter_cons, TTSEvent.isError]
    · simp [emitResultEvents, noSpeechAfterError, TTSEvent.isError,
        TTSEvent.isSpeech]

/-- C4: for every request and environment, on both the ElevenLabs and
the PlayHT whole-file generate path, a failed operation emits exactly
one `ERROR` event carrying the same error with which the operation
fails; at most one `SPEECH` and at most one `ERROR` are emitted, never
both, and never a `SPEECH` after an `ERROR`. -/
theorem tts_generate_error_contract :
    (∀ (req : TTSRequest) (fetchResult : FetchOutcome (List Nat)),
      (∀ e, (ElevenLabsTTS.generate req fetchResult).1 = Except.error e →
        (ElevenLabsTTS.generate req fetchResult).2 = [TTSEvent.error e]) ∧
      speechCount (ElevenLabsTTS.generate req fetchResult).2 ≤ 1 ∧
      errorCount (ElevenLabsTTS.generate req fetchResult).2 ≤ 1 ∧
      ¬(1 ≤ speechCount (ElevenLabsTTS.generate req fetchResult).2 ∧
        1 ≤ errorCount (ElevenLabsTTS.generate req fetchResult).2) ∧
      noSpeechAfterError (ElevenLabsTTS.generate req fetchResult).2 = true) ∧
    (∀ (req : TTSRequest) (conversion : FetchOutcome String)
       (poll : Nat → PollResponse)
       (download : String → FetchOutcome (List Nat)),
      (∀ e, (PlayHTTTS.generate req conversion poll download).1 = Except.error e →
        (PlayHTTTS.generate req conversion poll download).2 = [TTSEvent.error e]) ∧
      speechCount (PlayHTTTS.generate req conversion poll download).2 ≤ 1 ∧
      errorCount (PlayHTTTS.generate req conversion poll download).2 ≤ 1 ∧
      ¬(1 ≤ speechCount (PlayHTTTS.generate req conversion poll download).2 ∧
        1 ≤ errorCount (PlayHTTTS.generate req conversion poll download).2) ∧
      noSpeechAfterError (PlayHTTTS.generate req conversion poll download).2 =
        true) := by
  constructor
  · intro req fetchResult
    exact emitResultEvents_error_events req _
  · intro req conversion poll download
    exact emitResultEvents_error_events req _

/-- Witness for C4: a network failure makes generate fail with the
rejection error and emit exactly that one `ERROR` event. -/
theorem tts_generate_error_contract_witness :
    (ElevenLabsTTS.generate
        { text := "hi", responseIndex := none, interactionCount := none }
        (FetchOutcome.networkError "boom")).1 = Except.error "boom" ∧
    (ElevenLabsTTS.generate
        { text := "hi", responseIndex := none, interactionCount := none }
        (FetchOutcome.networkError "boom")).2 = [TTSEvent.error "boom"] :=
  ⟨rfl,
    (tts_generate_error_contract.1
      { text := "hi", responseIndex := none, interactionCount := none }
      (FetchOutcome.networkError "boom")).1 "boom" rfl⟩

/-- Helper: a successful whole-file generate run emits exactly the one
`SPEECH` event built from the request and the result audio, and the
result metadata copies the request text and response index. -/
theorem emitResultEvents_success (req : TTSRequest)
    (run : Except String (List Nat)) (r : TTSResponse) :
    (emitResultEvents req run).1 = Except.ok r →
    (emitResultEvents req run).2 =
      [TTSEvent.speech (req.responseIndex.getD 0) (base64Encode r.audioData)
        req.text req.interactionCount] ∧
    r.metadata.text = req.text ∧
    r.metadata.responseIndex = req.responseIndex := by
  cases run with
  | error e =>
    intro h
    simp [emitResultEvents] at h
  | ok a =>
    intro h
    have hr : r =
        { audioData := a
          metadata :=
            { text := req.text
              format := some "audio/mpeg"
              responseIndex := req.responseIndex } } := by
      have := h.symm
      simpa [emitResultEvents] using this
    subst hr
    exact ⟨rfl, rfl, rfl⟩

/-- C5: for every request and environment on which the ElevenLabs
generate succeeds, it emits one `SPEECH` event carrying
`(responseIndex ?? 0, base64(audioData), text, interactionCount)` and
resolves with a result whose metadata text equals the request text and
whose metadata response index equals the request response index. -/
theorem elevenlabs_generate_success_contract :
    ∀ (req : TTSRequest) (fetchResult : FetchOutcome (List Nat))
      (r : TTSResponse),
      (ElevenLabsTTS.generate req fetchResult).1 = Except.ok r →
      (ElevenLabsTTS.generate req fetchResult).2 =
        [TTSEvent.speech (req.responseIndex.getD 0) (base64Encode r.audioData)
          req.text req.interactionCount] ∧
      r.metadata.text = req.text ∧
      r.metadata.responseIndex = req.responseIndex := by
  intro req fetchResult r
  exact emitResultEvents_success req _ r

/-- Witness for C5 at a concrete successful request. -/
theorem elevenlabs_generate_success_contract_witness :
    (ElevenLabsTTS.generate
        { text := "hello", responseIndex := some 2, interactionCount := some 7 }
        (FetchOutcome.response true "" [1, 2, 3])).1 =
      Except.ok
        { audioData := [1, 2, 3]
          metadata :=
            { text := "hello"
              format := some "audio/mpeg"
              responseIndex := some 2 } } ∧
    ((ElevenLabsTTS.generate
        { text := "hello", responseIndex := some 2, interactionCount := some 7 }
        (FetchOutcome.response true "" [1, 2, 3])).2 =
      [TTSEvent.speech 2 (base64Encode [1, 2, 3]) "hello" (some 7)] ∧
     (TTSMetadata.text
        { text := "hello", format := some "audio/mpeg", responseIndex := some 2 }) =
       "hello" ∧
     (TTSMetadata.responseIndex
        { text := "hello", format := some "audio/mpeg", responseIndex := some 2 }) =
       some 2) :=
  ⟨rfl,
    elevenlabs_generate_success_contract
      { text := "hello", responseIndex := some 2, interactionCount := some 7 }
      (FetchOutcome.response true "" [1, 2, 3])
      { audioData := [1, 2, 3]
        metadata :=
          { text := "hello", format := some "audio/mpeg", responseIndex := some 2 } }
      rfl⟩

/-- C9: calling `send` while the ready state is not 1 (open) — in
particular 3 (closed) — is a silent no-op: the state is unchanged, no
frame reaches the transport and no event is emitted; while the ready
state is 1, the base64-decoded payload is appended to the frames
forwarded to the transport, still with no event. -/
theorem deepgram_stt_send_contract :
    (∀ (s : DeepgramSTT) (payload : String), s.getReadyState ≠ 1 →
      s.send payload = (s, [])) ∧
    (∀ (c : ListenLiveClient) (payload : String), c.readyState = 1 →
      DeepgramSTT.send { dgConnection := some c } payload =
        ({ dgConnection :=
            some { c with sentFrames := c.sentFrames ++ [base64Decode payload] } },
         [])) := by
  constructor
  · intro s payload h
    unfold DeepgramSTT.send
    rw [if_neg h]
  · intro c payload h
    unfold DeepgramSTT.send
    rw [if_pos]
    exact h

/-- Witness for C9: a closed connection ignores `send`; an open
connection forwards one decoded frame. -/
theorem deepgram_stt_send_contract_witness :
    (DeepgramSTT.getReadyState { dgConnection := none } ≠ 1 ∧
      DeepgramSTT.send { dgConnection := none } "AAAA" =
        ({ dgConnection := none }, [])) ∧
    DeepgramSTT.send { dgConnection := some { readyState := 1, sentFrames := [] } }
        "AAAA" =
      ({ dgConnection :=
          some { readyState := 1, sentFrames := [] ++ [base64Decode "AAAA"] } },
       []) :=
  ⟨⟨by decide,
    deepgram_stt_send_contract.1 { dgConnection := none } "AAAA" (by decide)⟩,
   deepgram_stt_send_contract.2 { readyState := 1, sentFrames := [] } "AAAA" rfl⟩

/-- C10: a zero-valued guidance tunable is falsy, so its truthiness
guard skips the range check: with valid credentials and every other
numeric option absent, a configuration with `voiceGuidance = 0`
(outside the documented 1 to 6 range) and `styleGuidance = 0` (outside
1 to 30) still constructs successfully. -/
theorem playht_zero_tunable_skips_range_check :
    (∀ (config : PlayHTConfigV2),
      config.apiKey ≠ "" → config.userId ≠ "" → config.voiceId ≠ "" →
      config.speed = none → config.sampleRate = none →
      config.temperature = none → config.textGuidance = none →
      config.voiceGuidance = some 0 → config.styleGuidance = some 0 →
      (PlayHTTTSv2.make config).isOk = true) ∧
    (PlayHTTTSv2.make
      { apiKey := "key", userId := "user", voiceId := "voice"
        quality := none, speed := none, encoding := none, sampleRate := none
        seed := none, temperature := none, voiceGuidance := some 0
        styleGuidance := some 0, textGuidance := none, language := none
        model := none }).isOk = true := by
  constructor
  · intro config hak hus hv hsp hsr htmp htg hvg hsg
    unfold PlayHTTTSv2.make
    rw [if_neg (by simp [hak, hus]), if_neg (by simp [hv])]
    rw [hsp, hsr, htmp, htg, hvg, hsg]
    norm_num [optTruthy, jsTruthy]
    rfl
  · unfold PlayHTTTSv2.make
    rw [if_neg (by decide), if_neg (by decide)]
    norm_num [optTruthy, jsTruthy]
    rfl

/-- Witness for C10: the general statement applied at a concrete
configuration with both guidance tunables set to zero. -/
theorem playht_zero_tunable_skips_range_check_witness :
    (PlayHTTTSv2.make
      { apiKey := "k2", userId := "u2", voiceId := "v2"
        quality := none, speed := none, encoding := none, sampleRate := none
        seed := none, temperature := none, voiceGuidance := some 0
        styleGuidance := some 0, textGuidance := none, language := none
        model := none }).isOk = true :=
  playht_zero_tunable_skips_range_check.1
    { apiKey := "k2", userId := "u2", voiceId := "v2"
      quality := none, speed := none, encoding := none, sampleRate := none
      seed := none, temperature := none, voiceGuidance := some 0
      styleGuidance := some 0, textGuidance := none, language := none
      model := none }
    (by decide) (by decide) (by decide) rfl rfl rfl rfl rfl rfl

/-- Counterexample for C6 as stated: the ElevenLabs constructor accepts
a stability of 1.5, outside the documented range from 0 to 1, so it is
not the case that every adapter rejects an out-of-range numeric tunable
at construction. -/
theorem elevenlabs_no_range_validation_cex :
    (ElevenLabsTTS.make
      { apiKey := "key", voiceId := some "voice", modelId := none
        stability := some (3/2), similarityBoost := none }).isOk = true := by
  unfold ElevenLabsTTS.make
  rw [if_neg (by decide)]
  rfl

/-- C6 (amended): the adapters that do validate their numeric tunables
reject out-of-range values at construction, before any network call:
the Deepgram TTS constructor rejects a speaking rate outside 0.5 to 2.0
and the PlayHT constructor rejects a speed outside 0.1 to 5.0; the
ElevenLabs constructor performs no range validation and accepts any
stability or similarity boost. -/
theorem adapter_construction_validation :
    (∀ (config : DeepgramTTSConfig), config.apiKey ≠ "" →
      (config.speakingRate.getD 1 < (1/2 : Rat) ∨
        config.speakingRate.getD 1 > 2) →
      DeepgramTTS.make config =
        Except.error "Speaking rate must be between 0.5 and 2.0") ∧
    (∀ (config : PlayHTConfigV2),
      config.apiKey ≠ "" → config.userId ≠ "" → config.voiceId ≠ "" →
      (config.speed.getD 1 < (1/10 : Rat) ∨ config.speed.getD 1 > 5) →
      PlayHTTTSv2.make config =
        Except.error "Speed must be between 0.1 and 5.0") ∧
    (∀ (config : ElevenLabsConfig), config.apiKey ≠ "" →
      (ElevenLabsTTS.make config).isOk = true) := by
  refine ⟨?_, ?_, ?_⟩
  · intro config hak hrate
    unfold DeepgramTTS.make
    rw [if_neg hak, if_pos hrate]
  · intro config hak hus hv hspeed
    unfold PlayHTTTSv2.make
    rw [if_neg (by simp [hak, hus]), if_neg (by simp [hv]), if_pos hspeed]
  · intro config hak
    unfold ElevenLabsTTS.make
    rw [if_neg hak]
    rfl

/-- Witness for the amended C6 at concrete out-of-range tunables: a
speaking rate of 2.5 and a speed of 6 are rejected at construction,
while an ElevenLabs stability of 1.25 is accepted. -/
theorem adapter_construction_validation_witness :
    DeepgramTTS.make
        { apiKey := "dk", voiceId := "dv", model := none
          speakingRate := some (5/2) } =
      Except.error "Speaking rate must be between 0.5 and 2.0" ∧
    PlayHTTTSv2.make
        { apiKey := "pk", userId := "pu", voiceId := "pv"
          quality := none, speed := some 6, encoding := none
          sampleRate := none, seed := none, temperature := none
          voiceGuidance := none, styleGuidance := none, textGuidance := none
          language := none, model := none } =
      Except.error "Speed must be between 0.1 and 5.0" ∧
    (ElevenLabsTTS.make
        { apiKey := "ek", voiceId := none, modelId := none
          stability := some (5/4), similarityBoost := none }).isOk = true :=
  ⟨adapter_construction_validation.1
      { apiKey := "dk", voiceId := "dv", model := none
        speakingRate := some (5/2) }
      (by decide) (by norm_num),
   adapter_construction_validation.2.1
      { apiKey := "pk", userId := "pu", voiceId := "pv"
        quality := none, speed := some 6, encoding := none
        sampleRate := none, seed := none, temperature := none
        voiceGuidance := none, styleGuidance := none, textGuidance := none
        language := none, model := none }
      (by decide) (by decide) (by decide) (by norm_num),
   adapter_construction_validation.2.2
      { apiKey := "ek", voiceId := none, modelId := none
        stability := some (5/4), similarityBoost := none }
      (by decide)⟩

/-- C8 (amended): the validated PlayHT `generate` fails on an empty
request text with the text-required error before any network call — the
outcome is the same for every environment, and the one `ERROR` event
carries the same error; the ElevenLabs `generate` performs no such
check. -/
theorem playht_empty_text_validation :
    ∀ (req : TTSRequest) (conversion : FetchOutcome String)
      (poll : Nat → PollResponse)
      (download : String → FetchOutcome (List Nat)),
      req.text = "" →
      PlayHTTTSv2.generate req conversion poll download =
        (Except.error "Text is required for TTS generation",
         [TTSEvent.error "Text is required for TTS generation"]) := by
  intro req conversion poll download h
  unfold PlayHTTTSv2.generate
  rw [if_pos h]
  rfl

/-- Witness for the amended C8: an empty-text request fails identically
in an environment in which every network call would fail, showing no
environment access occurs. -/
theorem playht_empty_text_validation_witness :
    PlayHTTTSv2.generate
        { text := "", responseIndex := none, interactionCount := none }
        (FetchOutcome.networkError "down")
        (fun _ => PollResponse.httpError)
        (fun _ => FetchOutcome.networkError "down") =
      (Except.error "Text is required for TTS generation",
       [TTSEvent.error "Text is required for TTS generation"]) :=
  playht_empty_text_validation
    { text := "", responseIndex := none, interactionCount := none }
    (FetchOutcome.networkError "down")
    (fun _ => PollResponse.httpError)
    (fun _ => FetchOutcome.networkError "down")
    rfl

/-- Counterexample for C8 as stated: the ElevenLabs `generate` accepts
an empty request text, performs the network call and succeeds, so it is
not the case that every adapter fails fast with a validation error on
empty text. -/
theorem elevenlabs_empty_text_no_validation_cex :
    (ElevenLabsTTS.generate
        { text := "", responseIndex := none, interactionCount := none }
        (FetchOutcome.response true "" [1, 2, 3])).1 =
      Except.ok
        { audioData := [1, 2, 3]
          metadata :=
            { text := "", format := some "audio/mpeg", responseIndex := none } } :=
  rfl

/-- Concrete transcript alternative used by the C1 counterexample. -/
def sampleAlternative : DGAlternative :=
  { transcript := "hello", confidence := none, words := none }

/-- Concrete final transcript event without `speech_final` used by the
C1 counterexample. -/
def sampleFinalTranscript : LiveTranscriptionEvent :=
  { type := "Results"
    channel := some { alternatives := some [sampleAlternative] }
    is_final := some true
    speech_final := some false
    start := none
    duration := none
    metadata := none }

/-- Concrete utterance-end vendor event used by the C1
counterexample. -/
def sampleUtteranceEnd : UtteranceEndEvent :=
  { last_word_end := 1, channel := [0] }

/-- Canonical transcription emitted for the sample transcript. -/
def sampleTranscription : TranscriptionResult :=
  { text := "hello"
    isFinal := true
    speechFinal := false
    confidence := none
    start := none
    duration := none
    words := none
    requestId := none
    modelVersion := none }

/-- Counterexample for C1 as stated: after a final transcript without
`speechFinal=true` (so the current utterance is still open by the
wording of the claim), the utterance-end signal produces zero
`TRANSCRIPTION` events — not the one synthesized terminal event the
claim requires — and only passes through one `UTTERANCE_END`. -/
theorem deepgram_stt_no_synthesized_transcription_cex :
    processMessages
        [DGMessage.transcriptMsg sampleFinalTranscript,
         DGMessage.utteranceEndMsg sampleUtteranceEnd] =
      [STTEventOut.transcription sampleTranscription,
       STTEventOut.utteranceEnd { last_word_end := 1, channel := [0] }] ∧
    transcriptionCount
        (handleMessage (DGMessage.utteranceEndMsg sampleUtteranceEnd)) = 0 := by
  constructor
  · decide
  · rfl

/-- C1 (amended): the utterance-end handler keeps no per-utterance
state: every utterance-end signal is passed through as exactly one
`UTTERANCE_END` event carrying the last word end and channel, and it
never adds a `TRANSCRIPTION` event to the session, whatever messages
(with or without a `speechFinal=true` result) preceded it. -/
theorem deepgram_stt_utterance_end_passthrough :
    ∀ (e : UtteranceEndEvent) (msgs : List DGMessage),
      handleMessage (DGMessage.utteranceEndMsg e) =
        [STTEventOut.utteranceEnd
          { last_word_end := e.last_word_end, channel := e.channel }] ∧
      transcriptionCount
          (processMessages (msgs ++ [DGMessage.utteranceEndMsg e])) =
        transcriptionCount (processMessages msgs) := by
  intro e msgs
  refine ⟨rfl, ?_⟩
  unfold processMessages
  rw [List.flatMap_append]
  unfold transcriptionCount
  rw [List.filter_append, List.length_append]
  simp [handleMessage, STTEventOut.isTranscription]
